import Mathlib

/-!
Verification of the forecast client library (package `forecast`, file
`v2/forecast.go`) against its specification.

The library has three operations: `GetResponse` (build a URL and perform a
GET), `FromJSON` (decode a JSON payload into a `Forecast` record with
`encoding/json`), and `Get` (compose the two and attach the value of the
`X-Forecast-API-Calls` response header).

Modelling conventions:
  * Go's `(ptr, error)` return pairs where the pointer is `nil` exactly when
    the error is non-nil are modelled as `Except String _` (`.error e` is
    `(nil, err)`, `.ok f` is `(&f, nil)`).
  * JSON numbers are modelled as rationals (the exact decimal value of the
    numeric literal); the float64 fields of the Go structs are therefore
    rational-valued.  No claim involves float rounding.
  * `encoding/json`'s syntax layer is modelled by an executable recursive
    descent parser `parseJSON` following the JSON grammar the Go decoder
    accepts (RFC 8259: no leading zeros, no trailing data, string escapes,
    optional sign/fraction/exponent on numbers).
  * `encoding/json`'s struct decoding is modelled field by field from the
    struct tags in the source: a JSON object is folded key by key into the
    struct, unknown keys are ignored, a JSON `null` leaves the current value
    unchanged (and produces no error), and a type mismatch is an error.
    Key matching is by the exact tag name.
-/

namespace FC

/-- JSON values.  Numbers carry the exact rational value of the literal. -/
inductive JValue where
  | null : JValue
  | bool : Bool → JValue
  | num : ℚ → JValue
  | str : String → JValue
  | arr : List JValue → JValue
  | obj : List (String × JValue) → JValue

/-- JSON whitespace (space, tab, newline, carriage return). -/
def isWS (c : Char) : Bool :=
  c == ' ' || c == '\r' || c == '\n' || c == '\t'

def skipWS (l : List Char) : List Char := l.dropWhile isWS

/-- Decimal digit, code points 48 through 57. -/
def isDigit (c : Char) : Bool := 48 ≤ c.toNat && c.toNat ≤ 57

def digitVal (c : Char) : Nat := c.toNat - 48

def digitsToNat (ds : List Char) : Nat :=
  ds.foldl (fun a c => a * 10 + digitVal c) 0

/-- Hexadecimal digit value, for `\uXXXX` escapes: digits, then lowercase
and uppercase letters (code points 97-102 and 65-70, offsets 87 and 55). -/
def hexDigitVal (c : Char) : Option Nat :=
  if isDigit c then some (digitVal c)
  else if 'a' ≤ c && c ≤ 'f' then some (c.toNat - 87)
  else if 'A' ≤ c && c ≤ 'F' then some (c.toNat - 55)
  else none

/-- Characters of a JSON string literal after the opening quote, up to the
closing quote; processes escape sequences, rejects raw control characters. -/
def parseStringChars : Nat → List Char → Except String (List Char × List Char)
  | 0, _ => .error "string: out of fuel"
  | _ + 1, [] => .error "unexpected end of JSON input"
  | _ + 1, '"' :: rest => .ok ([], rest)
  | fuel + 1, '\\' :: rest =>
    match rest with
    | '"' :: r => (parseStringChars fuel r).map (fun p => ('"' :: p.1, p.2))
    | '\\' :: r => (parseStringChars fuel r).map (fun p => ('\\' :: p.1, p.2))
    | '/' :: r => (parseStringChars fuel r).map (fun p => ('/' :: p.1, p.2))
    | 'b' :: r => (parseStringChars fuel r).map (fun p => ('\x08' :: p.1, p.2))
    | 'f' :: r => (parseStringChars fuel r).map (fun p => ('\x0c' :: p.1, p.2))
    | 'n' :: r => (parseStringChars fuel r).map (fun p => ('\n' :: p.1, p.2))
    | 'r' :: r => (parseStringChars fuel r).map (fun p => ('\r' :: p.1, p.2))
    | 't' :: r => (parseStringChars fuel r).map (fun p => ('\t' :: p.1, p.2))
    | 'u' :: h1 :: h2 :: h3 :: h4 :: r =>
      match hexDigitVal h1, hexDigitVal h2, hexDigitVal h3, hexDigitVal h4 with
      | some a, some b, some c, some d =>
        (parseStringChars fuel r).map
          (fun p => (Char.ofNat (((a * 16 + b) * 16 + c) * 16 + d) :: p.1, p.2))
      | _, _, _, _ => .error "invalid hexadecimal escape in string literal"
    | _ => .error "invalid escape in string literal"
  | fuel + 1, c :: rest =>
    if c.toNat < 32 then .error "invalid control character in string literal"
    else (parseStringChars fuel rest).map (fun p => (c :: p.1, p.2))

/-- The integer part of a JSON number: a single `0`, or a nonzero digit
followed by digits.  Returns the value and the remaining input. -/
def parseIntPart : List Char → Except String (Nat × List Char)
  | [] => .error "unexpected end of JSON input"
  | '0' :: rest => .ok (0, rest)
  | c :: rest =>
    if isDigit c then
      .ok (digitsToNat (c :: rest.takeWhile isDigit), rest.dropWhile isDigit)
    else .error "invalid character in number literal"

/-- The optional fraction part: `.` followed by one or more digits.  Returns
the fraction digits' value, their count, and the remaining input. -/
def parseFracPart : List Char → Except String (Nat × Nat × List Char)
  | '.' :: rest =>
    match rest.takeWhile isDigit with
    | [] => .error "invalid character after decimal point"
    | ds => .ok (digitsToNat ds, ds.length, rest.dropWhile isDigit)
  | l => .ok (0, 0, l)

/-- The optional exponent part: `e`/`E`, an optional sign, one or more
digits.  Returns the signed exponent and the remaining input. -/
def parseExpPart : List Char → Except String (Int × List Char)
  | 'e' :: rest => parseExpTail rest
  | 'E' :: rest => parseExpTail rest
  | l => .ok (0, l)
where
  parseExpTail : List Char → Except String (Int × List Char)
    | '+' :: r => parseExpDigits 1 r
    | '-' :: r => parseExpDigits (-1) r
    | r => parseExpDigits 1 r
  parseExpDigits (sign : Int) : List Char → Except String (Int × List Char)
    | l =>
      match l.takeWhile isDigit with
      | [] => .error "invalid character in exponent"
      | ds => .ok (sign * (digitsToNat ds : Int), l.dropWhile isDigit)

/-- Parse a JSON number starting at the first character after the optional
minus sign, with `sign` `1` or `-1`. -/
def parseNumber (sign : Int) (l : List Char) : Except String (ℚ × List Char) := do
  let (ip, l) ← parseIntPart l
  let (fp, fdigits, l) ← parseFracPart l
  let (ex, l) ← parseExpPart l
  let mantissa : Int := sign * ((ip * 10 ^ fdigits + fp : Nat) : Int)
  let q : ℚ :=
    if 0 ≤ ex then
      mkRat (mantissa * (10 : Int) ^ ex.toNat) (10 ^ fdigits)
    else
      mkRat mantissa (10 ^ (fdigits + ex.natAbs))
  return (q, l)

mutual

/-- Recursive descent over JSON values; `fuel` bounds the recursion depth. -/
def parseValue : Nat → List Char → Except String (JValue × List Char)
  | 0, _ => .error "value: out of fuel"
  | fuel + 1, l =>
    match skipWS l with
    | [] => .error "unexpected end of JSON input"
    | 'n' :: 'u' :: 'l' :: 'l' :: rest => .ok (.null, rest)
    | 't' :: 'r' :: 'u' :: 'e' :: rest => .ok (.bool true, rest)
    | 'f' :: 'a' :: 'l' :: 's' :: 'e' :: rest => .ok (.bool false, rest)
    | '"' :: rest =>
      (parseStringChars (rest.length + 1) rest).map
        (fun p => (.str (String.mk p.1), p.2))
    | '-' :: rest => (parseNumber (-1) rest).map (fun p => (.num p.1, p.2))
    | '[' :: rest =>
      match skipWS rest with
      | ']' :: r => .ok (.arr [], r)
      | r => (parseElems fuel r).map (fun p => (.arr p.1, p.2))
    | '{' :: rest =>
      match skipWS rest with
      | '}' :: r => .ok (.obj [], r)
      | r => (parseMembers fuel r).map (fun p => (.obj p.1, p.2))
    | c :: rest =>
      if isDigit c then (parseNumber 1 (c :: rest)).map (fun p => (.num p.1, p.2))
      else .error "invalid character looking for beginning of value"

/-- Array elements, positioned at the first element; consumes the closing
bracket. -/
def parseElems : Nat → List Char → Except String (List JValue × List Char)
  | 0, _ => .error "array: out of fuel"
  | fuel + 1, l => do
    let (v, rest) ← parseValue fuel l
    match skipWS rest with
    | ',' :: r => (parseElems fuel r).map (fun p => (v :: p.1, p.2))
    | ']' :: r => .ok ([v], r)
    | _ => .error "invalid character after array element"

/-- Object members, positioned at the first key; consumes the closing
brace. -/
def parseMembers : Nat → List Char → Except String (List (String × JValue) × List Char)
  | 0, _ => .error "object: out of fuel"
  | fuel + 1, l =>
    match skipWS l with
    | '"' :: rest => do
      let (ks, rest) ← parseStringChars (rest.length + 1) rest
      match skipWS rest with
      | ':' :: r => do
        let (v, rest) ← parseValue fuel r
        match skipWS rest with
        | ',' :: r2 => (parseMembers fuel r2).map (fun p => ((String.mk ks, v) :: p.1, p.2))
        | '}' :: r2 => .ok ([(String.mk ks, v)], r2)
        | _ => .error "invalid character after object key-value pair"
      | _ => .error "invalid character after object key"
    | _ => .error "invalid character looking for beginning of object key string"

end

/-- The syntax layer of `encoding/json.Unmarshal`: parse the whole input as a
single JSON value, allowing surrounding whitespace only. -/
def parseJSON (s : String) : Except String JValue :=
  match parseValue (2 * s.length + 4) s.data with
  | .error e => .error e
  | .ok (v, rest) =>
    match skipWS rest with
    | [] => .ok v
    | _ => .error "invalid character after top-level value"

/-- `type Flags struct` of `v2/forecast.go`.  Field defaults are the Go zero
values, so `{}` is the value of `var f Flags`. -/
structure Flags where
  DarkSkyUnavailable : String := ""
  DarkSkyStations : List String := []
  DataPointStations : List String := []
  ISDStations : List String := []
  LAMPStations : List String := []
  METARStations : List String := []
  METNOLicense : String := ""
  Sources : List String := []
  Units : String := ""

/-- `type DataPoint struct` of `v2/forecast.go`.  `float64` fields are
modelled as rationals, `int` fields as integers. -/
structure DataPoint where
  Time : ℚ := 0
  Summary : String := ""
  Icon : String := ""
  SunriseTime : ℚ := 0
  SunsetTime : ℚ := 0
  MoonPhase : ℚ := 0
  PrecipIntensity : ℚ := 0
  PrecipIntensityMax : ℚ := 0
  PrecipIntensityMaxTime : ℚ := 0
  PrecipProbability : ℚ := 0
  PrecipType : String := ""
  PrecipAccumulation : ℚ := 0
  TemperatureLow : ℚ := 0
  Temperature : ℚ := 0
  ApparentTemperature : ℚ := 0
  TemperatureLowTime : ℚ := 0
  TemperatureHigh : ℚ := 0
  TemperatureHighTime : ℚ := 0
  ApparentTemperatureHigh : ℚ := 0
  ApparentTemperatureHighTime : ℚ := 0
  ApparentTemperatureLow : ℚ := 0
  ApparentTemperatureLowTime : ℚ := 0
  TemperatureMin : ℚ := 0
  TemperatureMinTime : ℚ := 0
  TemperatureMax : ℚ := 0
  TemperatureMaxTime : ℚ := 0
  ApparentTemperatureMin : ℚ := 0
  ApparentTemperatureMinTime : ℚ := 0
  ApparentTemperatureMax : ℚ := 0
  ApparentTemperatureMaxTime : ℚ := 0
  DewPoint : ℚ := 0
  Humidity : ℚ := 0
  Pressure : ℚ := 0
  WindSpeed : ℚ := 0
  WindGust : ℚ := 0
  WindGustTime : ℚ := 0
  WindBearing : ℚ := 0
  CloudCover : ℚ := 0
  UVIndex : ℤ := 0
  UVIndexTime : ℤ := 0
  Ozone : ℚ := 0
  Visibility : ℚ := 0

/-- `type DataBlock struct` of `v2/forecast.go`. -/
structure DataBlock where
  Summary : String := ""
  Icon : String := ""
  Data : List DataPoint := []

/-- `type alert struct` of `v2/forecast.go`. -/
structure alert where
  Title : String := ""
  Description : String := ""
  Time : ℚ := 0
  Expires : ℚ := 0
  URI : String := ""

/-- `type Forecast struct` of `v2/forecast.go`. -/
structure Forecast where
  Latitude : ℚ := 0
  Longitude : ℚ := 0
  Timezone : String := ""
  Offset : ℚ := 0
  Currently : DataPoint := {}
  Minutely : DataBlock := {}
  Hourly : DataBlock := {}
  Daily : DataBlock := {}
  Alerts : List alert := []
  Flags : Flags := {}
  APICalls : ℤ := 0
  Code : ℤ := 0

/-- The Go zero value of `Forecast` (`var f Forecast`): every field zero,
empty, or a zero-valued nested record. -/
def zeroForecast : Forecast := {}

/-- Decode the elements of a JSON array in order, stopping at the first
failing element (the sequential array-decoding loop of `encoding/json`). -/
def decodeElems (dec : JValue → Except String A) : List JValue → Except String (List A)
  | [] => .ok []
  | v :: vs => do
    let x ← dec v
    let xs ← decodeElems dec vs
    return (x :: xs)

/-- Fold the key/value pairs of a JSON object in order into a struct value,
stopping at the first failing assignment (the sequential object-decoding
loop of `encoding/json`; later duplicate keys overwrite earlier ones). -/
def decodeFields (set : A → String × JValue → Except String A) :
    A → List (String × JValue) → Except String A
  | cur, [] => .ok cur
  | cur, kv :: rest => do
    let cur2 ← set cur kv
    decodeFields set cur2 rest

/-- Decode a JSON value into a `string` field holding `cur`: a JSON string
replaces it, `null` leaves it unchanged, anything else is an error. -/
def decString (cur : String) : JValue → Except String String
  | .str s => .ok s
  | .null => .ok cur
  | _ => .error "json: cannot unmarshal value into Go value of type string"

/-- Decode a JSON value into a `float64` field holding `cur`. -/
def decFloat (cur : ℚ) : JValue → Except String ℚ
  | .num q => .ok q
  | .null => .ok cur
  | _ => .error "json: cannot unmarshal value into Go value of type float64"

/-- Decode a JSON value into an `int` field holding `cur`: the number must
be integral. -/
def decInt (cur : ℤ) : JValue → Except String ℤ
  | .num q => if q.den = 1 then .ok q.num else .error "json: cannot unmarshal number into Go value of type int"
  | .null => .ok cur
  | _ => .error "json: cannot unmarshal value into Go value of type int"

/-- Decode a JSON value into a `[]string` field holding `cur`: an array is
decoded element by element into fresh zero values, `null` leaves the field
unchanged. -/
def decStringList (cur : List String) : JValue → Except String (List String)
  | .arr xs => decodeElems (decString "") xs
  | .null => .ok cur
  | _ => .error "json: cannot unmarshal value into Go value of type []string"

/-- One key/value assignment of the object decoder for `Flags`, keyed by the
struct tags of `type Flags struct`; unknown keys are ignored. -/
def Flags.setField (f : Flags) : String × JValue → Except String Flags
  | ("darksky-unavailable", v) => (decString f.DarkSkyUnavailable v).map (fun x => { f with DarkSkyUnavailable := x })
  | ("darksky-stations", v) => (decStringList f.DarkSkyStations v).map (fun x => { f with DarkSkyStations := x })
  | ("datapoint-stations", v) => (decStringList f.DataPointStations v).map (fun x => { f with DataPointStations := x })
  | ("isds-stations", v) => (decStringList f.ISDStations v).map (fun x => { f with ISDStations := x })
  | ("lamp-stations", v) => (decStringList f.LAMPStations v).map (fun x => { f with LAMPStations := x })
  | ("metars-stations", v) => (decStringList f.METARStations v).map (fun x => { f with METARStations := x })
  | ("metnol-license", v) => (decString f.METNOLicense v).map (fun x => { f with METNOLicense := x })
  | ("sources", v) => (decStringList f.Sources v).map (fun x => { f with Sources := x })
  | ("units", v) => (decString f.Units v).map (fun x => { f with Units := x })
  | _ => .ok f

/-- `encoding/json` decoding of a JSON value into a `Flags` struct holding
`cur`: an object is folded key by key, `null` is a no-op. -/
def unmarshalFlags (cur : Flags) : JValue → Except String Flags
  | .obj fs => decodeFields Flags.setField cur fs
  | .null => .ok cur
  | _ => .error "json: cannot unmarshal value into Go value of type forecast.Flags"

/-- One key/value assignment of the object decoder for `DataPoint`, keyed by
the struct tags of `type DataPoint struct`; unknown keys are ignored. -/
def DataPoint.setField (d : DataPoint) : String × JValue → Except String DataPoint
  | ("time", v) => (decFloat d.Time v).map (fun x => { d with Time := x })
  | ("summary", v) => (decString d.Summary v).map (fun x => { d with Summary := x })
  | ("icon", v) => (decString d.Icon v).map (fun x => { d with Icon := x })
  | ("sunrise_time", v) => (decFloat d.SunriseTime v).map (fun x => { d with SunriseTime := x })
  | ("sunset_time", v) => (decFloat d.SunsetTime v).map (fun x => { d with SunsetTime := x })
  | ("moon_phase", v) => (decFloat d.MoonPhase v).map (fun x => { d with MoonPhase := x })
  | ("precipIntensity", v) => (decFloat d.PrecipIntensity v).map (fun x => { d with PrecipIntensity := x })
  | ("precipIntensityMax", v) => (decFloat d.PrecipIntensityMax v).map (fun x => { d with PrecipIntensityMax := x })
  | ("precipIntensityMaxTime", v) => (decFloat d.PrecipIntensityMaxTime v).map (fun x => { d with PrecipIntensityMaxTime := x })
  | ("precipProbability", v) => (decFloat d.PrecipProbability v).map (fun x => { d with PrecipProbability := x })
  | ("precipType", v) => (decString d.PrecipType v).map (fun x => { d with PrecipType := x })
  | ("precipAccumulation", v) => (decFloat d.PrecipAccumulation v).map (fun x => { d with PrecipAccumulation := x })
  | ("temperatureLow", v) => (decFloat d.TemperatureLow v).map (fun x => { d with TemperatureLow := x })
  | ("temperature", v) => (decFloat d.Temperature v).map (fun x => { d with Temperature := x })
  | ("apparentTemperature", v) => (decFloat d.ApparentTemperature v).map (fun x => { d with ApparentTemperature := x })
  | ("temperatureLowTime", v) => (decFloat d.TemperatureLowTime v).map (fun x => { d with TemperatureLowTime := x })
  | ("temperatureHigh", v) => (decFloat d.TemperatureHigh v).map (fun x => { d with TemperatureHigh := x })
  | ("temperatureHighTime", v) => (decFloat d.TemperatureHighTime v).map (fun x => { d with TemperatureHighTime := x })
  | ("apparentTemperatureHigh", v) => (decFloat d.ApparentTemperatureHigh v).map (fun x => { d with ApparentTemperatureHigh := x })
  | ("apparentTemperatureHighTime", v) => (decFloat d.ApparentTemperatureHighTime v).map (fun x => { d with ApparentTemperatureHighTime := x })
  | ("apparentTemperatureLow", v) => (decFloat d.ApparentTemperatureLow v).map (fun x => { d with ApparentTemperatureLow := x })
  | ("apparentTemperatureLowTime", v) => (decFloat d.ApparentTemperatureLowTime v).map (fun x => { d with ApparentTemperatureLowTime := x })
  | ("temperature_min", v) => (decFloat d.TemperatureMin v).map (fun x => { d with TemperatureMin := x })
  | ("temperature_min_time", v) => (decFloat d.TemperatureMinTime v).map (fun x => { d with TemperatureMinTime := x })
  | ("temperature_max", v) => (decFloat d.TemperatureMax v).map (fun x => { d with TemperatureMax := x })
  | ("temperature_max_time", v) => (decFloat d.TemperatureMaxTime v).map (fun x => { d with TemperatureMaxTime := x })
  | ("apparentTemperatureMin", v) => (decFloat d.ApparentTemperatureMin v).map (fun x => { d with ApparentTemperatureMin := x })
  | ("apparentTemperatureMinTime", v) => (decFloat d.ApparentTemperatureMinTime v).map (fun x => { d with ApparentTemperatureMinTime := x })
  | ("apparentTemperatureMax", v) => (decFloat d.ApparentTemperatureMax v).map (fun x => { d with ApparentTemperatureMax := x })
  | ("apparentTemperatureMaxTime", v) => (decFloat d.ApparentTemperatureMaxTime v).map (fun x => { d with ApparentTemperatureMaxTime := x })
  | ("dew_point", v) => (decFloat d.DewPoint v).map (fun x => { d with DewPoint := x })
  | ("humidity", v) => (decFloat d.Humidity v).map (fun x => { d with Humidity := x })
  | ("pressure", v) => (decFloat d.Pressure v).map (fun x => { d with Pressure := x })
  | ("windSpeed", v) => (decFloat d.WindSpeed v).map (fun x => { d with WindSpeed := x })
  | ("windGust", v) => (decFloat d.WindGust v).map (fun x => { d with WindGust := x })
  | ("windGustTime", v) => (decFloat d.WindGustTime v).map (fun x => { d with WindGustTime := x })
  | ("windBearing", v) => (decFloat d.WindBearing v).map (fun x => { d with WindBearing := x })
  | ("cloudCover", v) => (decFloat d.CloudCover v).map (fun x => { d with CloudCover := x })
  | ("uvIndex", v) => (decInt d.UVIndex v).map (fun x => { d with UVIndex := x })
  | ("uvIndexTime", v) => (decInt d.UVIndexTime v).map (fun x => { d with UVIndexTime := x })
  | ("ozone", v) => (decFloat d.Ozone v).map (fun x => { d with Ozone := x })
  | ("visibility", v) => (decFloat d.Visibility v).map (fun x => { d with Visibility := x })
  | _ => .ok d

/-- `encoding/json` decoding of a JSON value into a `DataPoint` struct. -/
def unmarshalDataPoint (cur : DataPoint) : JValue → Except String DataPoint
  | .obj fs => decodeFields DataPoint.setField cur fs
  | .null => .ok cur
  | _ => .error "json: cannot unmarshal value into Go value of type forecast.DataPoint"

/-- Decode a JSON value into a `[]DataPoint` field: each array element is
decoded into a fresh zero `DataPoint`. -/
def decPointList (cur : List DataPoint) : JValue → Except String (List DataPoint)
  | .arr xs => decodeElems (unmarshalDataPoint {}) xs
  | .null => .ok cur
  | _ => .error "json: cannot unmarshal value into Go value of type []forecast.DataPoint"

/-- One key/value assignment of the object decoder for `DataBlock`. -/
def DataBlock.setField (b : DataBlock) : String × JValue → Except String DataBlock
  | ("summary", v) => (decString b.Summary v).map (fun x => { b with Summary := x })
  | ("icon", v) => (decString b.Icon v).map (fun x => { b with Icon := x })
  | ("data", v) => (decPointList b.Data v).map (fun x => { b with Data := x })
  | _ => .ok b

/-- `encoding/json` decoding of a JSON value into a `DataBlock` struct. -/
def unmarshalDataBlock (cur : DataBlock) : JValue → Except String DataBlock
  | .obj fs => decodeFields DataBlock.setField cur fs
  | .null => .ok cur
  | _ => .error "json: cannot unmarshal value into Go value of type forecast.DataBlock"

/-- One key/value assignment of the object decoder for `alert`. -/
def alert.setField (a : alert) : String × JValue → Except String alert
  | ("title", v) => (decString a.Title v).map (fun x => { a with Title := x })
  | ("description", v) => (decString a.Description v).map (fun x => { a with Description := x })
  | ("time", v) => (decFloat a.Time v).map (fun x => { a with Time := x })
  | ("expires", v) => (decFloat a.Expires v).map (fun x => { a with Expires := x })
  | ("uri", v) => (decString a.URI v).map (fun x => { a with URI := x })
  | _ => .ok a

/-- `encoding/json` decoding of a JSON value into an `alert` struct. -/
def unmarshalAlert (cur : alert) : JValue → Except String alert
  | .obj fs => decodeFields alert.setField cur fs
  | .null => .ok cur
  | _ => .error "json: cannot unmarshal value into Go value of type forecast.alert"

/-- Decode a JSON value into a `[]alert` field. -/
def decAlertList (cur : List alert) : JValue → Except String (List alert)
  | .arr xs => decodeElems (unmarshalAlert {}) xs
  | .null => .ok cur
  | _ => .error "json: cannot unmarshal value into Go value of type []forecast.alert"

/-- One key/value assignment of the object decoder for `Forecast`, keyed by
the struct tags of `type Forecast struct`. -/
def Forecast.setField (f : Forecast) : String × JValue → Except String Forecast
  | ("latitude", v) => (decFloat f.Latitude v).map (fun x => { f with Latitude := x })
  | ("longitude", v) => (decFloat f.Longitude v).map (fun x => { f with Longitude := x })
  | ("timezone", v) => (decString f.Timezone v).map (fun x => { f with Timezone := x })
  | ("offset", v) => (decFloat f.Offset v).map (fun x => { f with Offset := x })
  | ("currently", v) => (unmarshalDataPoint f.Currently v).map (fun x => { f with Currently := x })
  | ("minutely", v) => (unmarshalDataBlock f.Minutely v).map (fun x => { f with Minutely := x })
  | ("hourly", v) => (unmarshalDataBlock f.Hourly v).map (fun x => { f with Hourly := x })
  | ("daily", v) => (unmarshalDataBlock f.Daily v).map (fun x => { f with Daily := x })
  | ("alerts", v) => (decAlertList f.Alerts v).map (fun x => { f with Alerts := x })
  | ("flags", v) => (unmarshalFlags f.Flags v).map (fun x => { f with Flags := x })
  | ("apicalls", v) => (decInt f.APICalls v).map (fun x => { f with APICalls := x })
  | ("code", v) => (decInt f.Code v).map (fun x => { f with Code := x })
  | _ => .ok f

/-- `encoding/json` decoding of a JSON value into a `Forecast` struct: the
top-level value must be an object (or `null`, which is a no-op). -/
def unmarshalForecast (cur : Forecast) : JValue → Except String Forecast
  | .obj fs => decodeFields Forecast.setField cur fs
  | .null => .ok cur
  | _ => .error "json: cannot unmarshal value into Go value of type forecast.Forecast"

/-- `func FromJSON(jsonBlob []byte) (*Forecast, error)` of `v2/forecast.go`:
`var f Forecast; err := json.Unmarshal(jsonBlob, &f)`; on error it returns
`(nil, err)` (modelled `.error`), otherwise `(&f, nil)` (modelled `.ok f`).
The `log.Println` calls in the source only write to the log and do not
affect the result. -/
def FromJSON (jsonBlob : String) : Except String Forecast :=
  match parseJSON jsonBlob with
  | .error e => .error e
  | .ok v => unmarshalForecast zeroForecast v

/-!
Re-encoding (`encoding/json.Marshal` applied to the structs of
`v2/forecast.go`): every field is emitted in declaration order under its
struct-tag name (no tag carries `omitempty`).  The nil/empty slice
distinction of Go (nil marshals as `null`, empty as `[]`) is not modelled:
both are the empty list and marshal as an empty array; both decode back to
the empty list, so the round-trip results agree with Go either way.
-/

def marshalStringList (l : List String) : JValue := .arr (l.map .str)

def marshalFlags (f : Flags) : JValue :=
  .obj [
    ("darksky-unavailable", .str f.DarkSkyUnavailable),
    ("darksky-stations", marshalStringList f.DarkSkyStations),
    ("datapoint-stations", marshalStringList f.DataPointStations),
    ("isds-stations", marshalStringList f.ISDStations),
    ("lamp-stations", marshalStringList f.LAMPStations),
    ("metars-stations", marshalStringList f.METARStations),
    ("metnol-license", .str f.METNOLicense),
    ("sources", marshalStringList f.Sources),
    ("units", .str f.Units)]

def marshalDataPoint (d : DataPoint) : JValue :=
  .obj [
    ("time", .num d.Time),
    ("summary", .str d.Summary),
    ("icon", .str d.Icon),
    ("sunrise_time", .num d.SunriseTime),
    ("sunset_time", .num d.SunsetTime),
    ("moon_phase", .num d.MoonPhase),
    ("precipIntensity", .num d.PrecipIntensity),
    ("precipIntensityMax", .num d.PrecipIntensityMax),
    ("precipIntensityMaxTime", .num d.PrecipIntensityMaxTime),
    ("precipProbability", .num d.PrecipProbability),
    ("precipType", .str d.PrecipType),
    ("precipAccumulation", .num d.PrecipAccumulation),
    ("temperatureLow", .num d.TemperatureLow),
    ("temperature", .num d.Temperature),
    ("apparentTemperature", .num d.ApparentTemperature),
    ("temperatureLowTime", .num d.TemperatureLowTime),
    ("temperatureHigh", .num d.TemperatureHigh),
    ("temperatureHighTime", .num d.TemperatureHighTime),
    ("apparentTemperatureHigh", .num d.ApparentTemperatureHigh),
    ("apparentTemperatureHighTime", .num d.ApparentTemperatureHighTime),
    ("apparentTemperatureLow", .num d.ApparentTemperatureLow),
    ("apparentTemperatureLowTime", .num d.ApparentTemperatureLowTime),
    ("temperature_min", .num d.TemperatureMin),
    ("temperature_min_time", .num d.TemperatureMinTime),
    ("temperature_max", .num d.TemperatureMax),
    ("temperature_max_time", .num d.TemperatureMaxTime),
    ("apparentTemperatureMin", .num d.ApparentTemperatureMin),
    ("apparentTemperatureMinTime", .num d.ApparentTemperatureMinTime),
    ("apparentTemperatureMax", .num d.ApparentTemperatureMax),
    ("apparentTemperatureMaxTime", .num d.ApparentTemperatureMaxTime),
    ("dew_point", .num d.DewPoint),
    ("humidity", .num d.Humidity),
    ("pressure", .num d.Pressure),
    ("windSpeed", .num d.WindSpeed),
    ("windGust", .num d.WindGust),
    ("windGustTime", .num d.WindGustTime),
    ("windBearing", .num d.WindBearing),
    ("cloudCover", .num d.CloudCover),
    ("uvIndex", .num (d.UVIndex : ℚ)),
    ("uvIndexTime", .num (d.UVIndexTime : ℚ)),
    ("ozone", .num d.Ozone),
    ("visibility", .num d.Visibility)]

def marshalDataBlock (b : DataBlock) : JValue :=
  .obj [
    ("summary", .str b.Summary),
    ("icon", .str b.Icon),
    ("data", .arr (b.Data.map marshalDataPoint))]

def marshalAlert (a : alert) : JValue :=
  .obj [
    ("title", .str a.Title),
    ("description", .str a.Description),
    ("time", .num a.Time),
    ("expires", .num a.Expires),
    ("uri", .str a.URI)]

def marshalForecast (f : Forecast) : JValue :=
  .obj [
    ("latitude", .num f.Latitude),
    ("longitude", .num f.Longitude),
    ("timezone", .str f.Timezone),
    ("offset", .num f.Offset),
    ("currently", marshalDataPoint f.Currently),
    ("minutely", marshalDataBlock f.Minutely),
    ("hourly", marshalDataBlock f.Hourly),
    ("daily", marshalDataBlock f.Daily),
    ("alerts", .arr (f.Alerts.map marshalAlert)),
    ("flags", marshalFlags f.Flags),
    ("apicalls", .num (f.APICalls : ℚ)),
    ("code", .num (f.Code : ℚ))]

/-!
The request builder (`GetResponse`) and orchestration (`Get`) of
`v2/forecast.go`.  The network GET and the body read are I/O; their
outcomes are passed to the model as data (`Except`-valued arguments), and
the pure parts — the URL computation, the header extraction, the
composition and short-circuiting of errors — are modelled exactly as
written in the source.
-/

/-- `const BASEURL` of `v2/forecast.go`. -/
def BASEURL : String := "https://api.forecast.io/forecast"

/-- `type Units string`; the constants below are its declared values. -/
abbrev Units := String

def CA : Units := "ca"
def SI : Units := "si"
def US : Units := "us"
def UK : Units := "uk"
def AUTO : Units := "auto"

/-- The URL computed inside `GetResponse(key, lat, long, time, units)`:
`coord := lat + "," + long`, then the time segment is appended unless
`time == "now"`. -/
def GetResponseURL (key lat long time : String) (units : Units) : String :=
  let coord := lat ++ "," ++ long
  if time == "now" then
    BASEURL ++ "/" ++ key ++ "/" ++ coord ++ "?units=" ++ units
  else
    BASEURL ++ "/" ++ key ++ "/" ++ coord ++ "," ++ time ++ "?units=" ++ units

/-- `strconv.Atoi`: an optional sign followed by one or more decimal
digits; `none` models a syntax error (in which case `Atoi`'s first return
value is `0`).  Integers are unbounded in the model, so the range clamping
of the machine-width `strconv.Atoi` does not arise. -/
def Atoi (s : String) : Option ℤ :=
  match s.data with
  | '+' :: rest => (digitsValue rest).map (fun n => (n : ℤ))
  | '-' :: rest => (digitsValue rest).map (fun n => -(n : ℤ))
  | l => (digitsValue l).map (fun n => (n : ℤ))
where
  digitsValue : List Char → Option Nat
    | [] => none
    | l => if l.all isDigit then some (digitsToNat l) else none

/-- `http.Header.Get`: the header value, or `""` when the header is
absent. -/
def headerGet (h : List (String × String)) (k : String) : String :=
  (h.lookup k).getD ""

/-- The parts of an `*http.Response` that `Get` consumes: the headers and
the outcome of `ioutil.ReadAll(res.Body)`. -/
structure HttpResponse where
  headers : List (String × String)
  body : Except String String

/-- `func Get(key, lat, long, time string, units Units) (*Forecast, error)`
of `v2/forecast.go`, as a function of the transport outcome (the result of
`GetResponse`, whose only effectful part is the GET itself): each failing
step returns `(nil, err)` at once; on success `f.APICalls` is overwritten
with the parsed `X-Forecast-API-Calls` header, the parse error being
discarded (`calls, _ := strconv.Atoi(...)`). -/
def Get (res : Except String HttpResponse) : Except String Forecast :=
  match res with
  | .error e => .error e
  | .ok r =>
    match r.body with
    | .error e => .error e
    | .ok body =>
      match FromJSON body with
      | .error e => .error e
      | .ok f =>
        .ok { f with APICalls := (Atoi (headerGet r.headers "X-Forecast-API-Calls")).getD 0 }

/-!
Reduction lemmas used by the round-trip proofs.  The `step_` lemmas below
restate single branches of the `setField` matches at their literal keys.
-/

theorem ok_bind {A B : Type} (a : A) (f : A → Except String B) :
    (Except.ok a >>= f) = f a := rfl

theorem error_bind {A B : Type} (e : String) (f : A → Except String B) :
    ((Except.error e : Except String A) >>= f) = .error e := rfl

theorem pure_eq_ok {A : Type} (a : A) : (pure a : Except String A) = .ok a := rfl

theorem exceptMap_ok {A B : Type} (f : A → B) (a : A) :
    Except.map f (.ok a : Except String A) = .ok (f a) := rfl

theorem decString_str (cur : String) (s : String) : decString cur (.str s) = .ok s := rfl

theorem decFloat_num (cur : ℚ) (q : ℚ) : decFloat cur (.num q) = .ok q := rfl

theorem decInt_intCast (cur : ℤ) (n : ℤ) : decInt cur (.num (n : ℚ)) = .ok n := by
  simp [decInt, Rat.den_intCast, Rat.num_intCast]

theorem step_DataPoint_Time (d : DataPoint) (v : JValue) :
    DataPoint.setField d ("time", v) = (decFloat d.Time v).map (fun x => { d with Time := x }) := rfl

theorem step_DataPoint_Summary (d : DataPoint) (v : JValue) :
    DataPoint.setField d ("summary", v) = (decString d.Summary v).map (fun x => { d with Summary := x }) := rfl

theorem step_DataPoint_Icon (d : DataPoint) (v : JValue) :
    DataPoint.setField d ("icon", v) = (decString d.Icon v).map (fun x => { d with Icon := x }) := rfl

theorem step_DataPoint_SunriseTime (d : DataPoint) (v : JValue) :
    DataPoint.setField d ("sunrise_time", v) = (decFloat d.SunriseTime v).map (fun x => { d with SunriseTime := x }) := rfl

theorem step_DataPoint_SunsetTime (d : DataPoint) (v : JValue) :
    DataPoint.setField d ("sunset_time", v) = (decFloat d.SunsetTime v).map (fun x => { d with SunsetTime := x }) := rfl

theorem step_DataPoint_MoonPhase (d : DataPoint) (v : JValue) :
    DataPoint.setField d ("moon_phase", v) = (decFloat d.MoonPhase v).map (fun x => { d with MoonPhase := x }) := rfl

theorem step_DataPoint_PrecipIntensity (d : DataPoint) (v : JValue) :
    DataPoint.setField d ("precipIntensity", v) = (decFloat d.PrecipIntensity v).map (fun x => { d with PrecipIntensity := x }) := rfl

theorem step_DataPoint_PrecipIntensityMax (d : DataPoint) (v : JValue) :
    DataPoint.setField d ("precipIntensityMax", v) = (decFloat d.PrecipIntensityMax v).map (fun x => { d with PrecipIntensityMax := x }) := rfl

theorem step_DataPoint_PrecipIntensityMaxTime (d : DataPoint) (v : JValue) :
    DataPoint.setField d ("precipIntensityMaxTime", v) = (decFloat d.PrecipIntensityMaxTime v).map (fun x => { d with PrecipIntensityMaxTime := x }) := rfl

theorem step_DataPoint_PrecipProbability (d : DataPoint) (v : JValue) :
    DataPoint.setField d ("precipProbability", v) = (decFloat d.PrecipProbability v).map (fun x => { d with PrecipProbability := x }) := rfl

theorem step_DataPoint_PrecipType (d : DataPoint) (v : JValue) :
    DataPoint.setField d ("precipType", v) = (decString d.PrecipType v).map (fun x => { d with PrecipType := x }) := rfl

theorem step_DataPoint_PrecipAccumulation (d : DataPoint) (v : JValue) :
    DataPoint.setField d ("precipAccumulation", v) = (decFloat d.PrecipAccumulation v).map (fun x => { d with PrecipAccumulation := x }) := rfl

theorem step_DataPoint_TemperatureLow (d : DataPoint) (v : JValue) :
    DataPoint.setField d ("temperatureLow", v) = (decFloat d.TemperatureLow v).map (fun x => { d with TemperatureLow := x }) := rfl

theorem step_DataPoint_Temperature (d : DataPoint) (v : JValue) :
    DataPoint.setField d ("temperature", v) = (decFloat d.Temperature v).map (fun x => { d with Temperature := x }) := rfl

theorem step_DataPoint_ApparentTemperature (d : DataPoint) (v : JValue) :
    DataPoint.setField d ("apparentTemperature", v) = (decFloat d.ApparentTemperature v).map (fun x => { d with ApparentTemperature := x }) := rfl

theorem step_DataPoint_TemperatureLowTime (d : DataPoint) (v : JValue) :
    DataPoint.setField d ("temperatureLowTime", v) = (decFloat d.TemperatureLowTime v).map (fun x => { d with TemperatureLowTime := x }) := rfl

theorem step_DataPoint_TemperatureHigh (d : DataPoint) (v : JValue) :
    DataPoint.setField d ("temperatureHigh", v) = (decFloat d.TemperatureHigh v).map (fun x => { d with TemperatureHigh := x }) := rfl

theorem step_DataPoint_TemperatureHighTime (d : DataPoint) (v : JValue) :
    DataPoint.setField d ("temperatureHighTime", v) = (decFloat d.TemperatureHighTime v).map (fun x => { d with TemperatureHighTime := x }) := rfl

theorem step_DataPoint_ApparentTemperatureHigh (d : DataPoint) (v : JValue) :
    DataPoint.setField d ("apparentTemperatureHigh", v) = (decFloat d.ApparentTemperatureHigh v).map (fun x => { d with ApparentTemperatureHigh := x }) := rfl

theorem step_DataPoint_ApparentTemperatureHighTime (d : DataPoint) (v : JValue) :
    DataPoint.setField d ("apparentTemperatureHighTime", v) = (decFloat d.ApparentTemperatureHighTime v).map (fun x => { d with ApparentTemperatureHighTime := x }) := rfl

theorem step_DataPoint_ApparentTemperatureLow (d : DataPoint) (v : JValue) :
    DataPoint.setField d ("apparentTemperatureLow", v) = (decFloat d.ApparentTemperatureLow v).map (fun x => { d with ApparentTemperatureLow := x }) := rfl

theorem step_DataPoint_ApparentTemperatureLowTime (d : DataPoint) (v : JValue) :
    DataPoint.setField d ("apparentTemperatureLowTime", v) = (decFloat d.ApparentTemperatureLowTime v).map (fun x => { d with ApparentTemperatureLowTime := x }) := rfl

theorem step_DataPoint_TemperatureMin (d : DataPoint) (v : JValue) :
    DataPoint.setField d ("temperature_min", v) = (decFloat d.TemperatureMin v).map (fun x => { d with TemperatureMin := x }) := rfl

theorem step_DataPoint_TemperatureMinTime (d : DataPoint) (v : JValue) :
    DataPoint.setField d ("temperature_min_time", v) = (decFloat d.TemperatureMinTime v).map (fun x => { d with TemperatureMinTime := x }) := rfl

theorem step_DataPoint_TemperatureMax (d : DataPoint) (v : JValue) :
    DataPoint.setField d ("temperature_max", v) = (decFloat d.TemperatureMax v).map (fun x => { d with TemperatureMax := x }) := rfl

theorem step_DataPoint_TemperatureMaxTime (d : DataPoint) (v : JValue) :
    DataPoint.setField d ("temperature_max_time", v) = (decFloat d.TemperatureMaxTime v).map (fun x => { d with TemperatureMaxTime := x }) := rfl

theorem step_DataPoint_ApparentTemperatureMin (d : DataPoint) (v : JValue) :
    DataPoint.setField d ("apparentTemperatureMin", v) = (decFloat d.ApparentTemperatureMin v).map (fun x => { d with ApparentTemperatureMin := x }) := rfl

theorem step_DataPoint_ApparentTemperatureMinTime (d : DataPoint) (v : JValue) :
    DataPoint.setField d ("apparentTemperatureMinTime", v) = (decFloat d.ApparentTemperatureMinTime v).map (fun x => { d with ApparentTemperatureMinTime := x }) := rfl

theorem step_DataPoint_ApparentTemperatureMax (d : DataPoint) (v : JValue) :
    DataPoint.setField d ("apparentTemperatureMax", v) = (decFloat d.ApparentTemperatureMax v).map (fun x => { d with ApparentTemperatureMax := x }) := rfl

theorem step_DataPoint_ApparentTemperatureMaxTime (d : DataPoint) (v : JValue) :
    DataPoint.setField d ("apparentTemperatureMaxTime", v) = (decFloat d.ApparentTemperatureMaxTime v).map (fun x => { d with ApparentTemperatureMaxTime := x }) := rfl

theorem step_DataPoint_DewPoint (d : DataPoint) (v : JValue) :
    DataPoint.setField d ("dew_point", v) = (decFloat d.DewPoint v).map (fun x => { d with DewPoint := x }) := rfl

theorem step_DataPoint_Humidity (d : DataPoint) (v : JValue) :
    DataPoint.setField d ("humidity", v) = (decFloat d.Humidity v).map (fun x => { d with Humidity := x }) := rfl

theorem step_DataPoint_Pressure (d : DataPoint) (v : JValue) :
    DataPoint.setField d ("pressure", v) = (decFloat d.Pressure v).map (fun x => { d with Pressure := x }) := rfl

theorem step_DataPoint_WindSpeed (d : DataPoint) (v : JValue) :
    DataPoint.setField d ("windSpeed", v) = (decFloat d.WindSpeed v).map (fun x => { d with WindSpeed := x }) := rfl

theorem step_DataPoint_WindGust (d : DataPoint) (v : JValue) :
    DataPoint.setField d ("windGust", v) = (decFloat d.WindGust v).map (fun x => { d with WindGust := x }) := rfl

theorem step_DataPoint_WindGustTime (d : DataPoint) (v : JValue) :
    DataPoint.setField d ("windGustTime", v) = (decFloat d.WindGustTime v).map (fun x => { d with WindGustTime := x }) := rfl

theorem step_DataPoint_WindBearing (d : DataPoint) (v : JValue) :
    DataPoint.setField d ("windBearing", v) = (decFloat d.WindBearing v).map (fun x => { d with WindBearing := x }) := rfl

theorem step_DataPoint_CloudCover (d : DataPoint) (v : JValue) :
    DataPoint.setField d ("cloudCover", v) = (decFloat d.CloudCover v).map (fun x => { d with CloudCover := x }) := rfl

theorem step_DataPoint_UVIndex (d : DataPoint) (v : JValue) :
    DataPoint.setField d ("uvIndex", v) = (decInt d.UVIndex v).map (fun x => { d with UVIndex := x }) := rfl

theorem step_DataPoint_UVIndexTime (d : DataPoint) (v : JValue) :
    DataPoint.setField d ("uvIndexTime", v) = (decInt d.UVIndexTime v).map (fun x => { d with UVIndexTime := x }) := rfl

theorem step_DataPoint_Ozone (d : DataPoint) (v : JValue) :
    DataPoint.setField d ("ozone", v) = (decFloat d.Ozone v).map (fun x => { d with Ozone := x }) := rfl

theorem step_DataPoint_Visibility (d : DataPoint) (v : JValue) :
    DataPoint.setField d ("visibility", v) = (decFloat d.Visibility v).map (fun x => { d with Visibility := x }) := rfl

theorem step_Flags_DarkSkyUnavailable (g : Flags) (v : JValue) :
    Flags.setField g ("darksky-unavailable", v) = (decString g.DarkSkyUnavailable v).map (fun x => { g with DarkSkyUnavailable := x }) := rfl

theorem step_Flags_DarkSkyStations (g : Flags) (v : JValue) :
    Flags.setField g ("darksky-stations", v) = (decStringList g.DarkSkyStations v).map (fun x => { g with DarkSkyStations := x }) := rfl

theorem step_Flags_DataPointStations (g : Flags) (v : JValue) :
    Flags.setField g ("datapoint-stations", v) = (decStringList g.DataPointStations v).map (fun x => { g with DataPointStations := x }) := rfl

theorem step_Flags_ISDStations (g : Flags) (v : JValue) :
    Flags.setField g ("isds-stations", v) = (decStringList g.ISDStations v).map (fun x => { g with ISDStations := x }) := rfl

theorem step_Flags_LAMPStations (g : Flags) (v : JValue) :
    Flags.setField g ("lamp-stations", v) = (decStringList g.LAMPStations v).map (fun x => { g with LAMPStations := x }) := rfl

theorem step_Flags_METARStations (g : Flags) (v : JValue) :
    Flags.setField g ("metars-stations", v) = (decStringList g.METARStations v).map (fun x => { g with METARStations := x }) := rfl

theorem step_Flags_METNOLicense (g : Flags) (v : JValue) :
    Flags.setField g ("metnol-license", v) = (decString g.METNOLicense v).map (fun x => { g with METNOLicense := x }) := rfl

theorem step_Flags_Sources (g : Flags) (v : JValue) :
    Flags.setField g ("sources", v) = (decStringList g.Sources v).map (fun x => { g with Sources := x }) := rfl

theorem step_Flags_Units (g : Flags) (v : JValue) :
    Flags.setField g ("units", v) = (decString g.Units v).map (fun x => { g with Units := x }) := rfl

theorem step_DataBlock_Summary (b : DataBlock) (v : JValue) :
    DataBlock.setField b ("summary", v) = (decString b.Summary v).map (fun x => { b with Summary := x }) := rfl

theorem step_DataBlock_Icon (b : DataBlock) (v : JValue) :
    DataBlock.setField b ("icon", v) = (decString b.Icon v).map (fun x => { b with Icon := x }) := rfl

theorem step_DataBlock_Data (b : DataBlock) (v : JValue) :
    DataBlock.setField b ("data", v) = (decPointList b.Data v).map (fun x => { b with Data := x }) := rfl

theorem step_alert_Title (a : alert) (v : JValue) :
    alert.setField a ("title", v) = (decString a.Title v).map (fun x => { a with Title := x }) := rfl

theorem step_alert_Description (a : alert) (v : JValue) :
    alert.setField a ("description", v) = (decString a.Description v).map (fun x => { a with Description := x }) := rfl

theorem step_alert_Time (a : alert) (v : JValue) :
    alert.setField a ("time", v) = (decFloat a.Time v).map (fun x => { a with Time := x }) := rfl

theorem step_alert_Expires (a : alert) (v : JValue) :
    alert.setField a ("expires", v) = (decFloat a.Expires v).map (fun x => { a with Expires := x }) := rfl

theorem step_alert_URI (a : alert) (v : JValue) :
    alert.setField a ("uri", v) = (decString a.URI v).map (fun x => { a with URI := x }) := rfl

theorem step_Forecast_Latitude (f : Forecast) (v : JValue) :
    Forecast.setField f ("latitude", v) = (decFloat f.Latitude v).map (fun x => { f with Latitude := x }) := rfl

theorem step_Forecast_Longitude (f : Forecast) (v : JValue) :
    Forecast.setField f ("longitude", v) = (decFloat f.Longitude v).map (fun x => { f with Longitude := x }) := rfl

theorem step_Forecast_Timezone (f : Forecast) (v : JValue) :
    Forecast.setField f ("timezone", v) = (decString f.Timezone v).map (fun x => { f with Timezone := x }) := rfl

theorem step_Forecast_Offset (f : Forecast) (v : JValue) :
    Forecast.setField f ("offset", v) = (decFloat f.Offset v).map (fun x => { f with Offset := x }) := rfl

theorem step_Forecast_Currently (f : Forecast) (v : JValue) :
    Forecast.setField f ("currently", v) = (unmarshalDataPoint f.Currently v).map (fun x => { f with Currently := x }) := rfl

theorem step_Forecast_Minutely (f : Forecast) (v : JValue) :
    Forecast.setField f ("minutely", v) = (unmarshalDataBlock f.Minutely v).map (fun x => { f with Minutely := x }) := rfl

theorem step_Forecast_Hourly (f : Forecast) (v : JValue) :
    Forecast.setField f ("hourly", v) = (unmarshalDataBlock f.Hourly v).map (fun x => { f with Hourly := x }) := rfl

theorem step_Forecast_Daily (f : Forecast) (v : JValue) :
    Forecast.setField f ("daily", v) = (unmarshalDataBlock f.Daily v).map (fun x => { f with Daily := x }) := rfl

theorem step_Forecast_Alerts (f : Forecast) (v : JValue) :
    Forecast.setField f ("alerts", v) = (decAlertList f.Alerts v).map (fun x => { f with Alerts := x }) := rfl

theorem step_Forecast_Flags (f : Forecast) (v : JValue) :
    Forecast.setField f ("flags", v) = (unmarshalFlags f.Flags v).map (fun x => { f with Flags := x }) := rfl

theorem step_Forecast_APICalls (f : Forecast) (v : JValue) :
    Forecast.setField f ("apicalls", v) = (decInt f.APICalls v).map (fun x => { f with APICalls := x }) := rfl

theorem step_Forecast_Code (f : Forecast) (v : JValue) :
    Forecast.setField f ("code", v) = (decInt f.Code v).map (fun x => { f with Code := x }) := rfl

theorem exceptMap_error {A B : Type} (f : A → B) (e : String) :
    Except.map f (.error e : Except String A) = .error e := rfl

/-- Sequential element decoding is pointwise: a successful `decodeElems` run
returns one output per input, and the `i`-th output is the decode of the
`i`-th input. -/
theorem decodeElems_ok_spec {A : Type} (dec : JValue → Except String A) :
    ∀ (xs : List JValue) (ys : List A), decodeElems dec xs = .ok ys →
      ys.length = xs.length ∧
      ∀ (i : ℕ) (hx : i < xs.length) (hy : i < ys.length),
        dec (xs.get ⟨i, hx⟩) = .ok (ys.get ⟨i, hy⟩) := by
  intro xs
  induction xs with
  | nil =>
    intro ys h
    simp only [decodeElems, Except.ok.injEq] at h
    subst h
    exact ⟨rfl, fun i hx _ => absurd hx (Nat.not_lt_zero i)⟩
  | cons a l ih =>
    intro ys h
    simp only [decodeElems] at h
    cases hda : dec a with
    | error e => rw [hda, error_bind] at h; simp at h
    | ok x =>
      rw [hda, ok_bind] at h
      cases htl : decodeElems dec l with
      | error e => rw [htl, error_bind] at h; simp at h
      | ok txs =>
        rw [htl, ok_bind, pure_eq_ok] at h
        simp only [Except.ok.injEq] at h
        subst h
        obtain ⟨hlen, hget⟩ := ih txs htl
        refine ⟨by simp [hlen], ?_⟩
        intro i hx hy
        match i with
        | 0 => exact hda
        | i + 1 =>
          exact hget i (Nat.lt_of_succ_lt_succ hx) (Nat.lt_of_succ_lt_succ hy)

theorem decodeElems_map_str (l : List String) :
    decodeElems (decString "") (l.map JValue.str) = .ok l := by
  induction l with
  | nil => rfl
  | cons a l ih => simp only [List.map_cons, decodeElems, decString_str, ih, ok_bind, pure_eq_ok]

theorem decStringList_marshal (cur : List String) (l : List String) :
    decStringList cur (marshalStringList l) = .ok l := by
  simp only [marshalStringList, decStringList, decodeElems_map_str]

theorem unmarshalDataPoint_marshal (z x : DataPoint) :
    unmarshalDataPoint z (marshalDataPoint x) = .ok x := by
  simp only [marshalDataPoint, unmarshalDataPoint, decodeFields,
    step_DataPoint_Time, step_DataPoint_Summary, step_DataPoint_Icon,
    step_DataPoint_SunriseTime, step_DataPoint_SunsetTime, step_DataPoint_MoonPhase,
    step_DataPoint_PrecipIntensity, step_DataPoint_PrecipIntensityMax,
    step_DataPoint_PrecipIntensityMaxTime, step_DataPoint_PrecipProbability,
    step_DataPoint_PrecipType, step_DataPoint_PrecipAccumulation,
    step_DataPoint_TemperatureLow, step_DataPoint_Temperature,
    step_DataPoint_ApparentTemperature, step_DataPoint_TemperatureLowTime,
    step_DataPoint_TemperatureHigh, step_DataPoint_TemperatureHighTime,
    step_DataPoint_ApparentTemperatureHigh, step_DataPoint_ApparentTemperatureHighTime,
    step_DataPoint_ApparentTemperatureLow, step_DataPoint_ApparentTemperatureLowTime,
    step_DataPoint_TemperatureMin, step_DataPoint_TemperatureMinTime,
    step_DataPoint_TemperatureMax, step_DataPoint_TemperatureMaxTime,
    step_DataPoint_ApparentTemperatureMin, step_DataPoint_ApparentTemperatureMinTime,
    step_DataPoint_ApparentTemperatureMax, step_DataPoint_ApparentTemperatureMaxTime,
    step_DataPoint_DewPoint, step_DataPoint_Humidity, step_DataPoint_Pressure,
    step_DataPoint_WindSpeed, step_DataPoint_WindGust, step_DataPoint_WindGustTime,
    step_DataPoint_WindBearing, step_DataPoint_CloudCover, step_DataPoint_UVIndex,
    step_DataPoint_UVIndexTime, step_DataPoint_Ozone, step_DataPoint_Visibility,
    decFloat_num, decString_str, decInt_intCast, exceptMap_ok, ok_bind]

theorem decodeElems_marshalDataPoint (l : List DataPoint) :
    decodeElems (unmarshalDataPoint {}) (l.map marshalDataPoint) = .ok l := by
  induction l with
  | nil => rfl
  | cons a l ih =>
    simp only [List.map_cons, decodeElems, unmarshalDataPoint_marshal, ih, ok_bind, pure_eq_ok]

theorem decPointList_marshal (cur : List DataPoint) (l : List DataPoint) :
    decPointList cur (.arr (l.map marshalDataPoint)) = .ok l := by
  simp only [decPointList, decodeElems_marshalDataPoint]

theorem unmarshalDataBlock_marshal (z x : DataBlock) :
    unmarshalDataBlock z (marshalDataBlock x) = .ok x := by
  simp only [marshalDataBlock, unmarshalDataBlock, decodeFields,
    step_DataBlock_Summary, step_DataBlock_Icon, step_DataBlock_Data,
    decString_str, decPointList_marshal, exceptMap_ok, ok_bind]

theorem unmarshalAlert_marshal (z x : alert) :
    unmarshalAlert z (marshalAlert x) = .ok x := by
  simp only [marshalAlert, unmarshalAlert, decodeFields,
    step_alert_Title, step_alert_Description, step_alert_Time,
    step_alert_Expires, step_alert_URI,
    decString_str, decFloat_num, exceptMap_ok, ok_bind]

theorem decodeElems_marshalAlert (l : List alert) :
    decodeElems (unmarshalAlert {}) (l.map marshalAlert) = .ok l := by
  induction l with
  | nil => rfl
  | cons a l ih =>
    simp only [List.map_cons, decodeElems, unmarshalAlert_marshal, ih, ok_bind, pure_eq_ok]

theorem decAlertList_marshal (cur : List alert) (l : List alert) :
    decAlertList cur (.arr (l.map marshalAlert)) = .ok l := by
  simp only [decAlertList, decodeElems_marshalAlert]

theorem unmarshalFlags_marshal (z x : Flags) :
    unmarshalFlags z (marshalFlags x) = .ok x := by
  simp only [marshalFlags, unmarshalFlags, decodeFields,
    step_Flags_DarkSkyUnavailable, step_Flags_DarkSkyStations,
    step_Flags_DataPointStations, step_Flags_ISDStations, step_Flags_LAMPStations,
    step_Flags_METARStations, step_Flags_METNOLicense, step_Flags_Sources,
    step_Flags_Units, decString_str, decStringList_marshal, exceptMap_ok, ok_bind]

theorem unmarshalForecast_marshal (z x : Forecast) :
    unmarshalForecast z (marshalForecast x) = .ok x := by
  simp only [marshalForecast, unmarshalForecast, decodeFields,
    step_Forecast_Latitude, step_Forecast_Longitude, step_Forecast_Timezone,
    step_Forecast_Offset, step_Forecast_Currently, step_Forecast_Minutely,
    step_Forecast_Hourly, step_Forecast_Daily, step_Forecast_Alerts,
    step_Forecast_Flags, step_Forecast_APICalls, step_Forecast_Code,
    decFloat_num, decString_str, decInt_intCast, unmarshalDataPoint_marshal,
    unmarshalDataBlock_marshal, unmarshalFlags_marshal, decAlertList_marshal,
    exceptMap_ok, ok_bind]

/-!
The claims.
-/

/-- Claim C1: for `timeSpec = "now"` the URL built by `GetResponse` is
`{base}/{apiKey}/{lat},{long}?units={units}` with no time segment; for every
other non-empty `timeSpec` the URL is
`{base}/{apiKey}/{lat},{long},{timeSpec}?units={units}`, the `timeSpec`
being the third comma-joined path component, with
`base = "https://api.forecast.io/forecast"` (`BASEURL`). -/
theorem claim1_url_shape (key lat long time units : String) :
    (GetResponseURL key lat long "now" units =
      BASEURL ++ "/" ++ key ++ "/" ++ lat ++ "," ++ long ++ "?units=" ++ units)
    ∧ (time ≠ "now" → time ≠ "" →
      GetResponseURL key lat long time units =
        BASEURL ++ "/" ++ key ++ "/" ++ lat ++ "," ++ long ++ "," ++ time ++ "?units=" ++ units) := by
  constructor
  · simp [GetResponseURL, String.append_assoc]
  · intro h _
    simp [GetResponseURL, h, String.append_assoc]

/-- Witness for C1 at concrete inputs. -/
theorem claim1_witness :
    GetResponseURL "KEY" "37.8" "-122.4" "now" "us" =
      "https://api.forecast.io/forecast/KEY/37.8,-122.4?units=us"
    ∧ GetResponseURL "KEY" "37.8" "-122.4" "1234" "us" =
      "https://api.forecast.io/forecast/KEY/37.8,-122.4,1234?units=us" := by
  constructor
  · rw [(claim1_url_shape "KEY" "37.8" "-122.4" "now" "us").1]; rfl
  · rw [(claim1_url_shape "KEY" "37.8" "-122.4" "1234" "us").2 (by decide) (by decide)]; rfl

/-- Counterexample to C2 as stated: the input `null` is valid JSON whose
top-level value is not a JSON object, yet `FromJSON` succeeds and returns
the zero record rather than a decode error — `encoding/json` treats a
top-level JSON `null` as a no-op on the target struct. -/
theorem claim2_counterexample :
    parseJSON "null" = .ok .null ∧ FromJSON "null" = .ok zeroForecast :=
  ⟨rfl, rfl⟩

/-- Claim C2 (amended): for every input that is valid JSON whose top-level
value is neither a JSON object nor JSON `null` (an array, number, string,
or boolean), `FromJSON` returns a decode error and no record; for a
top-level `null` it succeeds with the zero-valued record. -/
theorem claim2_amended_nonobject_errors (s : String) (v : JValue)
    (hp : parseJSON s = .ok v) :
    ((∀ fs, v ≠ .obj fs) → v ≠ .null → ∃ e, FromJSON s = .error e)
    ∧ (v = .null → FromJSON s = .ok zeroForecast) := by
  constructor
  · intro hobj hnull
    unfold FromJSON
    rw [hp]
    cases v with
    | null => exact absurd rfl hnull
    | obj fs => exact absurd rfl (hobj fs)
    | bool b => exact ⟨_, rfl⟩
    | num q => exact ⟨_, rfl⟩
    | str t => exact ⟨_, rfl⟩
    | arr xs => exact ⟨_, rfl⟩
  · intro hv
    subst hv
    unfold FromJSON
    rw [hp]
    rfl

/-- Witness for the amended C2 at the concrete non-object input `true`. -/
theorem claim2_witness :
    parseJSON "true" = .ok (.bool true) ∧ (∃ e, FromJSON "true" = .error e) :=
  ⟨rfl, (claim2_amended_nonobject_errors "true" (.bool true) rfl).1
    (fun _ h => JValue.noConfusion h) (fun h => JValue.noConfusion h)⟩

/-- Claim C3: decoding the two-byte payload `\x7b\x7d` (an empty JSON
object) succeeds and yields a `Forecast` in which every field — numeric,
string, list, and nested record, recursively — holds the zero value of its
type. -/
theorem claim3_empty_object_decodes_to_zero :
    FromJSON "\x7b\x7d" = .ok
      { Latitude := 0, Longitude := 0, Timezone := "", Offset := 0, Currently := { Time := 0, Summary := "", Icon := "", SunriseTime := 0, SunsetTime := 0, MoonPhase := 0, PrecipIntensity := 0, PrecipIntensityMax := 0, PrecipIntensityMaxTime := 0, PrecipProbability := 0, PrecipType := "", PrecipAccumulation := 0, TemperatureLow := 0, Temperature := 0, ApparentTemperature := 0, TemperatureLowTime := 0, TemperatureHigh := 0, TemperatureHighTime := 0, ApparentTemperatureHigh := 0, ApparentTemperatureHighTime := 0, ApparentTemperatureLow := 0, ApparentTemperatureLowTime := 0, TemperatureMin := 0, TemperatureMinTime := 0, TemperatureMax := 0, TemperatureMaxTime := 0, ApparentTemperatureMin := 0, ApparentTemperatureMinTime := 0, ApparentTemperatureMax := 0, ApparentTemperatureMaxTime := 0, DewPoint := 0, Humidity := 0, Pressure := 0, WindSpeed := 0, WindGust := 0, WindGustTime := 0, WindBearing := 0, CloudCover := 0, UVIndex := 0, UVIndexTime := 0, Ozone := 0, Visibility := 0 }, Minutely := { Summary := "", Icon := "", Data := [] }, Hourly := { Summary := "", Icon := "", Data := [] }, Daily := { Summary := "", Icon := "", Data := [] }, Alerts := [], Flags := { DarkSkyUnavailable := "", DarkSkyStations := [], DataPointStations := [], ISDStations := [], LAMPStations := [], METARStations := [], METNOLicense := "", Sources := [], Units := "" }, APICalls := 0, Code := 0 } := rfl

/-- Claim C4: for every byte sequence that is not syntactically valid JSON
(the parse layer reports an error), `FromJSON` fails with that decode error
and returns no record at all — never a partially populated record
alongside an error. -/
theorem claim4_invalid_json_errors (s : String) (e : String)
    (hp : parseJSON s = .error e) : FromJSON s = .error e := by
  unfold FromJSON
  rw [hp]

/-- Witness for C4 at a concrete malformed input. -/
theorem claim4_witness :
    FromJSON "not json" = .error "invalid character looking for beginning of value" :=
  claim4_invalid_json_errors "not json" _ rfl

/-- Claim C6: `Get` composes the transport step, the body read, and the
decode step, short-circuiting on errors: a transport error, a body-read
error, or a decode error is returned as-is with no record and no retry;
only when all three steps succeed does `Get` return a record (with the
header-derived call counter attached) and no error. -/
theorem claim6_short_circuit :
    (∀ e, Get (.error e) = .error e)
    ∧ (∀ hdrs e, Get (.ok ⟨hdrs, .error e⟩) = .error e)
    ∧ (∀ hdrs body e, FromJSON body = .error e → Get (.ok ⟨hdrs, .ok body⟩) = .error e)
    ∧ (∀ hdrs body f, FromJSON body = .ok f →
        Get (.ok ⟨hdrs, .ok body⟩) =
          .ok { f with APICalls := (Atoi (headerGet hdrs "X-Forecast-API-Calls")).getD 0 }) := by
  refine ⟨fun e => rfl, fun hdrs e => rfl, ?_, ?_⟩
  · intro hdrs body e h
    simp [Get, h]
  · intro hdrs body f h
    simp [Get, h]

/-- Witness for C6: one concrete instance of each of the four cases. -/
theorem claim6_witness :
    Get (.error "dial tcp: no such host") = .error "dial tcp: no such host"
    ∧ Get (.ok ⟨[], .error "read: connection reset"⟩) = .error "read: connection reset"
    ∧ Get (.ok ⟨[], .ok "bad"⟩) = .error "invalid character looking for beginning of value"
    ∧ Get (.ok ⟨[("X-Forecast-API-Calls", "5")], .ok "\x7b\x7d"⟩) =
        .ok { zeroForecast with APICalls := 5 } := by
  refine ⟨claim6_short_circuit.1 _, claim6_short_circuit.2.1 _ _,
    claim6_short_circuit.2.2.1 _ _ _ rfl, ?_⟩
  rw [claim6_short_circuit.2.2.2 [("X-Forecast-API-Calls", "5")] "\x7b\x7d" zeroForecast rfl]
  rfl

/-- Claim C7: decoding preserves element order: for a payload whose
`minutely`/`hourly`/`daily` blocks carry `data` arrays and whose `alerts`
key carries an array, the decoded `Data` sequences and `Alerts` list have
exactly as many elements as the corresponding JSON arrays, and the `i`-th
decoded element is the decode of the `i`-th JSON array element (insertion
order = sequence order). -/
theorem claim7_order_preserved (ms hs ds as2 : List JValue) (f : Forecast)
    (h : unmarshalForecast zeroForecast (.obj
      [("minutely", .obj [("data", .arr ms)]),
       ("hourly", .obj [("data", .arr hs)]),
       ("daily", .obj [("data", .arr ds)]),
       ("alerts", .arr as2)]) = .ok f) :
    (f.Minutely.Data.length = ms.length ∧
      ∀ (i : ℕ) (hi : i < ms.length) (hj : i < f.Minutely.Data.length),
        unmarshalDataPoint {} (ms.get ⟨i, hi⟩) = .ok (f.Minutely.Data.get ⟨i, hj⟩))
    ∧ (f.Hourly.Data.length = hs.length ∧
      ∀ (i : ℕ) (hi : i < hs.length) (hj : i < f.Hourly.Data.length),
        unmarshalDataPoint {} (hs.get ⟨i, hi⟩) = .ok (f.Hourly.Data.get ⟨i, hj⟩))
    ∧ (f.Daily.Data.length = ds.length ∧
      ∀ (i : ℕ) (hi : i < ds.length) (hj : i < f.Daily.Data.length),
        unmarshalDataPoint {} (ds.get ⟨i, hi⟩) = .ok (f.Daily.Data.get ⟨i, hj⟩))
    ∧ (f.Alerts.length = as2.length ∧
      ∀ (i : ℕ) (hi : i < as2.length) (hj : i < f.Alerts.length),
        unmarshalAlert {} (as2.get ⟨i, hi⟩) = .ok (f.Alerts.get ⟨i, hj⟩)) := by
  cases hms : decodeElems (unmarshalDataPoint {}) ms with
  | error e =>
    simp only [unmarshalForecast, decodeFields, step_Forecast_Minutely, unmarshalDataBlock,
      step_DataBlock_Data, decPointList, decAlertList, zeroForecast, hms,
      exceptMap_ok, exceptMap_error, ok_bind, error_bind] at h
    exact Except.noConfusion h
  | ok lms =>
    cases hhs : decodeElems (unmarshalDataPoint {}) hs with
    | error e =>
      simp only [unmarshalForecast, decodeFields, step_Forecast_Minutely, step_Forecast_Hourly,
        unmarshalDataBlock, step_DataBlock_Data, decPointList, decAlertList, zeroForecast,
        hms, hhs, exceptMap_ok, exceptMap_error, ok_bind, error_bind] at h
      exact Except.noConfusion h
    | ok lhs =>
      cases hds : decodeElems (unmarshalDataPoint {}) ds with
      | error e =>
        simp only [unmarshalForecast, decodeFields, step_Forecast_Minutely, step_Forecast_Hourly,
          step_Forecast_Daily, unmarshalDataBlock, step_DataBlock_Data, decPointList,
          decAlertList, zeroForecast, hms, hhs, hds,
          exceptMap_ok, exceptMap_error, ok_bind, error_bind] at h
        exact Except.noConfusion h
      | ok lds =>
        cases has : decodeElems (unmarshalAlert {}) as2 with
        | error e =>
          simp only [unmarshalForecast, decodeFields, step_Forecast_Minutely, step_Forecast_Hourly,
            step_Forecast_Daily, step_Forecast_Alerts, unmarshalDataBlock, step_DataBlock_Data,
            decPointList, decAlertList, zeroForecast, hms, hhs, hds, has,
            exceptMap_ok, exceptMap_error, ok_bind, error_bind] at h
          exact Except.noConfusion h
        | ok las =>
          simp only [unmarshalForecast, decodeFields, step_Forecast_Minutely, step_Forecast_Hourly,
            step_Forecast_Daily, step_Forecast_Alerts, unmarshalDataBlock, step_DataBlock_Data,
            decPointList, decAlertList, zeroForecast, hms, hhs, hds, has,
            exceptMap_ok, exceptMap_error, ok_bind, error_bind, Except.ok.injEq] at h
          subst h
          refine ⟨⟨(decodeElems_ok_spec _ ms lms hms).1, (decodeElems_ok_spec _ ms lms hms).2⟩,
            ⟨(decodeElems_ok_spec _ hs lhs hhs).1, (decodeElems_ok_spec _ hs lhs hhs).2⟩,
            ⟨(decodeElems_ok_spec _ ds lds hds).1, (decodeElems_ok_spec _ ds lds hds).2⟩,
            ⟨(decodeElems_ok_spec _ as2 las has).1, (decodeElems_ok_spec _ as2 las has).2⟩⟩

/-- Witness for C7: a `daily* data` array of two points decodes to a `Data`
sequence of two points. -/
theorem claim7_witness :
    ({ zeroForecast with Daily := { Summary := "", Icon := "", Data := [{}, {}] }, Alerts := [{}] } : Forecast).Daily.Data.length = 2 := by
  have h := claim7_order_preserved [] [] [JValue.obj [], JValue.obj []] [JValue.obj []]
    { zeroForecast with Daily := { Summary := "", Icon := "", Data := [{}, {}] }, Alerts := [{}] } (by rfl)
  exact h.2.2.1.1

/-- Claim C8: for every payload that decodes successfully, re-encoding the
decoded record (with `encoding/json.Marshal` over the same struct tags) and
decoding again returns the identical record — so the re-encoding reproduces
the values of every recognized field extracted from the input (round-trip
on the recognized-field content; byte equality with the input is neither
required nor claimed). -/
theorem claim8_roundtrip (s : String) (f : Forecast) (_hdec : FromJSON s = .ok f) :
    unmarshalForecast zeroForecast (marshalForecast f) = .ok f :=
  unmarshalForecast_marshal zeroForecast f

/-- Witness for C8 at a concrete payload with a recognized-field subset. -/
theorem claim8_witness :
    FromJSON "\x7b\"latitude\":37,\"timezone\":\"America/New_York\"\x7d" =
      .ok { zeroForecast with Latitude := 37, Timezone := "America/New_York" }
    ∧ unmarshalForecast zeroForecast
        (marshalForecast { zeroForecast with Latitude := 37, Timezone := "America/New_York" }) =
      .ok { zeroForecast with Latitude := 37, Timezone := "America/New_York" } := by
  refine ⟨by rfl, claim8_roundtrip "\x7b\"latitude\":37,\"timezone\":\"America/New_York\"\x7d" _ (by rfl)⟩

/-- Claim C9: the time segment is omitted only for the exact string
`"now"`: the empty `timeSpec` still takes the second branch, producing
`{base}/{apiKey}/{lat},{long},?units={units}` with a trailing comma before
the query string — the empty string is not treated as "current time". -/
theorem claim9_empty_time_trailing_comma (key lat long units : String) :
    GetResponseURL key lat long "" units =
      BASEURL ++ "/" ++ key ++ "/" ++ lat ++ "," ++ long ++ "," ++ "?units=" ++ units := by
  simp [GetResponseURL, String.append_assoc]

end FC

